import Mathlib

/-!
Verification of the torchtune input-preparation pipeline and preference losses.

The development shallowly embeds two modules:

* `torchtune/rlhf/loss/dpo.py` — the `DPOLoss` and `RSOLoss` modules.
  Batched tensors of per-example log-probabilities become lists; each
  scalar entry is a dual number `D` (a value together with its forward-mode
  derivative with respect to an arbitrary scalar parameter of the enclosing
  optimization), which lets `Tensor.detach()` be modelled faithfully as
  zeroing the derivative component.

* `torchtune/models/llama3_2_vision/_transform.py` — the
  `Llama3VisionTransform` orchestrator.  Its three owned subcomponents
  (text tokenizer, CLIP image transform, cross-attention mask builder) are
  external to the verified sources and are modelled from the spec as
  abstract behaviours; samples are records with optional pipeline fields
  plus an opaque residue standing for all other keys of the mapping.
-/

namespace Torchtune

noncomputable section

/-! ## Dual numbers: scalar values carrying a forward-mode derivative -/

/-- A scalar of an autograd tensor: a real value together with its derivative
with respect to a fixed scalar parameter of the enclosing optimization. -/
structure D where
  val : ℝ
  grad : ℝ

/-- Elementwise tensor subtraction. -/
def D.sub (a b : D) : D := ⟨a.val - b.val, a.grad - b.grad⟩

/-- Elementwise tensor negation. -/
def D.neg (a : D) : D := ⟨-a.val, -a.grad⟩

/-- Multiplication of a tensor entry by a Python float constant (the
constant carries no derivative). -/
def D.constMul (c : ℝ) (a : D) : D := ⟨c * a.val, c * a.grad⟩

/-- Multiplication of a tensor entry by a float constant on the right. -/
def D.mulConst (a : D) (c : ℝ) : D := ⟨a.val * c, a.grad * c⟩

/-- Semantics of `Tensor.detach()`: same value, no derivative. -/
def D.detach (a : D) : D := ⟨a.val, 0⟩

/-- Semantics of `F.logsigmoid`, the numerically stable `-softplus(-x)` form of
`log σ(x) = log (1 / (1 + exp (-x)))`; its derivative is
`σ(-x) = exp (-x) / (1 + exp (-x))`. -/
def D.logsigmoid (a : D) : D :=
  ⟨-Real.log (1 + Real.exp (-a.val)),
    Real.exp (-a.val) / (1 + Real.exp (-a.val)) * a.grad⟩

/-- Semantics of `torch.relu`: `max(0, x)`; derivative 0 on `x ≤ 0` (PyTorch convention). -/
def D.relu (a : D) : D := ⟨max 0 a.val, if 0 < a.val then a.grad else 0⟩

/-! ## Data contract of the preference losses (`torchtune/rlhf/_types.py`) -/

/-- The contract type `ChosenRejectedOutputs`: per-example summed log-probabilities of the
chosen and rejected responses, one entry per batch example. -/
structure ChosenRejectedOutputs where
  chosen_logps : List D
  rejected_logps : List D

/-! ## `DPOLoss` (`torchtune/rlhf/loss/dpo.py`, lines 16–90) -/

/-- The `DPOLoss` module: construction stores `beta` and `label_smoothing`. -/
structure DPOLoss where
  beta : ℝ
  label_smoothing : ℝ

/-- Embedding of `DPOLoss.forward`: per-example DPO losses and detached rewards,
translated line by line from the source. -/
def DPOLoss.forward (self : DPOLoss)
    (policy_inputs reference_inputs : ChosenRejectedOutputs) :
    List D × List D × List D :=
  let pi_logratios :=
    List.zipWith D.sub policy_inputs.chosen_logps policy_inputs.rejected_logps
  let ref_logratios :=
    List.zipWith D.sub reference_inputs.chosen_logps reference_inputs.rejected_logps
  let logits := List.zipWith D.sub pi_logratios ref_logratios
  let losses := logits.map fun x =>
    D.sub (((D.constMul self.beta x).logsigmoid).neg.mulConst (1 - self.label_smoothing))
      (((D.constMul self.beta x).neg.logsigmoid).mulConst self.label_smoothing)
  let chosen_rewards :=
    (List.zipWith D.sub policy_inputs.chosen_logps reference_inputs.chosen_logps).map
      fun d => D.constMul self.beta d.detach
  let rejected_rewards :=
    (List.zipWith D.sub policy_inputs.rejected_logps reference_inputs.rejected_logps).map
      fun d => D.constMul self.beta d.detach
  (losses, chosen_rewards, rejected_rewards)

/-! ## `RSOLoss` (`torchtune/rlhf/loss/dpo.py`, lines 94–151) -/

/-- The `RSOLoss` module: construction stores `gamma`. -/
structure RSOLoss where
  gamma : ℝ

/-- Embedding of `RSOLoss.forward`: per-example hinge losses and detached rewards,
translated line by line from the source. -/
def RSOLoss.forward (self : RSOLoss)
    (policy_inputs reference_inputs : ChosenRejectedOutputs) :
    List D × List D × List D :=
  let pi_logratios :=
    List.zipWith D.sub policy_inputs.chosen_logps policy_inputs.rejected_logps
  let ref_logratios :=
    List.zipWith D.sub reference_inputs.chosen_logps reference_inputs.rejected_logps
  let logits := List.zipWith D.sub pi_logratios ref_logratios
  let losses := logits.map fun x => D.relu (D.sub ⟨1, 0⟩ (D.constMul self.gamma x))
  let chosen_rewards :=
    (List.zipWith D.sub policy_inputs.chosen_logps reference_inputs.chosen_logps).map
      fun d => D.constMul self.gamma d.detach
  let rejected_rewards :=
    (List.zipWith D.sub policy_inputs.rejected_logps reference_inputs.rejected_logps).map
      fun d => D.constMul self.gamma d.detach
  (losses, chosen_rewards, rejected_rewards)

/-! ## Spec-side definitions for the loss formulas -/

/-- The logistic sigmoid, as written in the spec. -/
def sigmoid (x : ℝ) : ℝ := 1 / (1 + Real.exp (-x))

/-- The spec's `logits`: `(policy.chosen_logps − policy.rejected_logps) −
(reference.chosen_logps − reference.rejected_logps)`, per example, at the
value level. -/
def specLogits (policy reference : ChosenRejectedOutputs) : List ℝ :=
  List.zipWith (· - ·)
    (List.zipWith (· - ·) (policy.chosen_logps.map D.val)
      (policy.rejected_logps.map D.val))
    (List.zipWith (· - ·) (reference.chosen_logps.map D.val)
      (reference.rejected_logps.map D.val))

/-- The spec's DPO loss formula at one logit:
`−log σ(beta·x)·(1−label_smoothing) − log σ(−beta·x)·label_smoothing`. -/
def specDPOLoss (beta label_smoothing x : ℝ) : ℝ :=
  -Real.log (sigmoid (beta * x)) * (1 - label_smoothing)
    - Real.log (sigmoid (-(beta * x))) * label_smoothing

/-- The concrete policy input of spec §8.6:
`chosen_logps=[2.0], rejected_logps=[1.0]`. -/
def cro86P : ChosenRejectedOutputs := ⟨[⟨2, 0⟩], [⟨1, 0⟩]⟩

/-- The concrete reference input of spec §8.6:
`chosen_logps=[1.0], rejected_logps=[1.0]`. -/
def cro86R : ChosenRejectedOutputs := ⟨[⟨1, 0⟩], [⟨1, 0⟩]⟩

/-- The §8.6 direct-preference loss module: `beta=0.1, label_smoothing=0`. -/
def dpo86 : DPOLoss := ⟨1/10, 0⟩

/-- The §8.6 hinge loss module: `gamma=0.1`. -/
def rso86 : RSOLoss := ⟨1/10⟩

/-! ## Supporting lemmas for the loss theorems -/

lemma map_val_zipWith_sub (l1 l2 : List D) :
    (List.zipWith D.sub l1 l2).map D.val =
      List.zipWith (· - ·) (l1.map D.val) (l2.map D.val) := by
  induction l1 generalizing l2 with
  | nil => simp
  | cons a t ih => cases l2 <;> simp [D.sub, ih]

lemma forward_logits_val (P R : ChosenRejectedOutputs) :
    (List.zipWith D.sub (List.zipWith D.sub P.chosen_logps P.rejected_logps)
        (List.zipWith D.sub R.chosen_logps R.rejected_logps)).map D.val =
      specLogits P R := by
  simp [specLogits, map_val_zipWith_sub]

lemma map_val_map_of_val (f : D → D) (g : ℝ → ℝ) (h : ∀ x, (f x).val = g x.val)
    (l : List D) : (l.map f).map D.val = (l.map D.val).map g := by
  induction l with
  | nil => rfl
  | cons a t ih => simp [h, ih]

lemma log_sigmoid_eq (y : ℝ) :
    Real.log (sigmoid y) = -Real.log (1 + Real.exp (-y)) := by
  rw [sigmoid, one_div, Real.log_inv]

lemma dpo_loss_val (beta ls : ℝ) (x : D) :
    (D.sub (((D.constMul beta x).logsigmoid).neg.mulConst (1 - ls))
        (((D.constMul beta x).neg.logsigmoid).mulConst ls)).val =
      specDPOLoss beta ls x.val := by
  simp only [D.sub, D.neg, D.mulConst, D.constMul, D.logsigmoid, specDPOLoss,
    log_sigmoid_eq, neg_neg]

lemma rso_loss_val (gamma : ℝ) (x : D) :
    (D.relu (D.sub ⟨1, 0⟩ (D.constMul gamma x))).val = max 0 (1 - gamma * x.val) := by
  simp [D.relu, D.sub, D.constMul]

lemma rewards_val (beta : ℝ) (l1 l2 : List D) :
    ((List.zipWith D.sub l1 l2).map fun d => D.constMul beta d.detach).map D.val =
      List.zipWith (fun a b => beta * (a - b)) (l1.map D.val) (l2.map D.val) := by
  induction l1 generalizing l2 with
  | nil => simp
  | cons a t ih =>
    cases l2 with
    | nil => simp
    | cons b t2 =>
      have hh : D.val (D.constMul beta (D.sub a b).detach) = beta * (a.val - b.val) := by
        simp [D.sub, D.detach, D.constMul]
      simp only [List.zipWith_cons_cons, List.map_cons, ih, hh]

lemma rewards_grad (beta : ℝ) (l : List D) :
    (l.map fun d => D.constMul beta d.detach).map D.grad =
      (l.map fun d => D.constMul beta d.detach).map fun _ => 0 := by
  simp [List.map_map, Function.comp_def, D.constMul, D.detach]

/-! ## Numeric bounds for the §8.6 example: `softplus(-0.1) ≈ 0.6444` -/

lemma exp_neg_tenth_bounds :
    (868635/960000 : ℝ) ≤ Real.exp (-(1/10)) ∧
      Real.exp (-(1/10)) ≤ 868645/960000 := by
  have hx : |(-(1/10) : ℝ)| ≤ 1 := by
    rw [abs_neg, abs_of_nonneg (by norm_num : (0:ℝ) ≤ 1/10)]; norm_num
  have h := Real.exp_bound hx (n := 4) (by norm_num)
  rw [abs_neg, abs_of_nonneg (by norm_num : (0:ℝ) ≤ 1/10)] at h
  simp only [Finset.sum_range_succ, Finset.sum_range_zero] at h
  norm_num [Nat.factorial] at h
  rw [abs_le] at h
  constructor <;> linarith [h.1, h.2]

lemma exp_6434_ub : Real.exp (6434/10000) ≤ (19030/10000 : ℝ) := by
  have h := Real.exp_bound' (x := 6434/10000) (by norm_num) (by norm_num)
    (n := 6) (by norm_num)
  simp only [Finset.sum_range_succ, Finset.sum_range_zero] at h
  norm_num [Nat.factorial] at h
  linarith

lemma exp_6454_lb : (19060/10000 : ℝ) ≤ Real.exp (6454/10000) := by
  have hx : |(6454/10000 : ℝ)| ≤ 1 := by
    rw [abs_of_nonneg (by norm_num : (0:ℝ) ≤ 6454/10000)]; norm_num
  have h := Real.exp_bound hx (n := 6) (by norm_num)
  rw [abs_of_nonneg (by norm_num : (0:ℝ) ≤ 6454/10000)] at h
  simp only [Finset.sum_range_succ, Finset.sum_range_zero] at h
  norm_num [Nat.factorial] at h
  rw [abs_le] at h
  linarith [h.1, h.2]

lemma softplus_pos : (0:ℝ) < 1 + Real.exp (-(1/10)) := by positivity

lemma softplus_neg_tenth_lb :
    (6434/10000 : ℝ) < Real.log (1 + Real.exp (-(1/10))) := by
  rw [Real.lt_log_iff_exp_lt softplus_pos]
  linarith [exp_6434_ub, exp_neg_tenth_bounds.1]

lemma softplus_neg_tenth_ub :
    Real.log (1 + Real.exp (-(1/10))) < (6454/10000 : ℝ) := by
  rw [Real.log_lt_iff_lt_exp softplus_pos]
  linarith [exp_6454_lb, exp_neg_tenth_bounds.2]

/-! ## Claim theorems for the preference losses -/

/-- C5: for every pair of policy and reference inputs and every `beta` and
`label_smoothing`, the per-example DPO loss equals
`−log σ(beta·logits)·(1−label_smoothing) − log σ(−beta·logits)·label_smoothing`
with `logits = (policy.chosen_logps − policy.rejected_logps) −
(reference.chosen_logps − reference.rejected_logps)` and `σ` the logistic
sigmoid; at the §8.6 input (`beta=0.1`, `label_smoothing=0`) the logits are
`[1.0]` and the loss is `softplus(-0.1)`, within `0.001` of `0.6444`. -/
theorem dpo_loss_matches_spec_formula :
    (∀ (self : DPOLoss) (P R : ChosenRejectedOutputs),
        (self.forward P R).1.map D.val =
          (specLogits P R).map (specDPOLoss self.beta self.label_smoothing))
      ∧ specLogits cro86P cro86R = [1]
      ∧ (dpo86.forward cro86P cro86R).1.map D.val =
          [Real.log (1 + Real.exp (-(1/10)))]
      ∧ |Real.log (1 + Real.exp (-(1/10))) - 6444/10000| < 1/1000 := by
  refine ⟨fun self P R => ?_, ?_, ?_, ?_⟩
  · simp only [DPOLoss.forward]
    rw [map_val_map_of_val _ (specDPOLoss self.beta self.label_smoothing)
      (fun x => dpo_loss_val self.beta self.label_smoothing x),
      forward_logits_val]
  · simp [specLogits, cro86P, cro86R]
    norm_num
  · simp [DPOLoss.forward, dpo86, cro86P, cro86R, D.sub, D.constMul, D.neg,
      D.mulConst, D.logsigmoid]
    norm_num
  · rw [abs_lt]
    constructor <;> [linarith [softplus_neg_tenth_lb]; linarith [softplus_neg_tenth_ub]]

/-- C6: the DPO per-example `chosen_reward` equals
`beta·(policy.chosen_logps − reference.chosen_logps)` and `rejected_reward`
equals `beta·(policy.rejected_logps − reference.rejected_logps)`, and both
reward tensors are detached: every entry carries zero derivative with
respect to any enclosing optimization parameter. -/
theorem dpo_rewards_formula_and_detached :
    ∀ (self : DPOLoss) (P R : ChosenRejectedOutputs),
      (self.forward P R).2.1.map D.val =
          List.zipWith (fun pc rc => self.beta * (pc - rc))
            (P.chosen_logps.map D.val) (R.chosen_logps.map D.val)
        ∧ (self.forward P R).2.2.map D.val =
          List.zipWith (fun pr rr => self.beta * (pr - rr))
            (P.rejected_logps.map D.val) (R.rejected_logps.map D.val)
        ∧ (self.forward P R).2.1.map D.grad =
          (self.forward P R).2.1.map (fun _ => 0)
        ∧ (self.forward P R).2.2.map D.grad =
          (self.forward P R).2.2.map (fun _ => 0) := by
  intro self P R
  refine ⟨?_, ?_, ?_, ?_⟩
  · simp only [DPOLoss.forward]
    exact rewards_val self.beta _ _
  · simp only [DPOLoss.forward]
    exact rewards_val self.beta _ _
  · simp only [DPOLoss.forward]
    exact rewards_grad self.beta _
  · simp only [DPOLoss.forward]
    exact rewards_grad self.beta _

/-- C7: for every pair of inputs and every `gamma`, the RSO per-example loss
equals `max(0, 1 − gamma·logits)` with the same `logits` definition as the
DPO variant, its rewards coincide with the DPO variant's rewards with
`gamma` substituted for `beta`, and at the §8.6 input with `gamma=0.1` the
loss is `0.9`. -/
theorem rso_loss_formula_and_example :
    (∀ (self : RSOLoss) (P R : ChosenRejectedOutputs),
        (self.forward P R).1.map D.val =
          (specLogits P R).map fun x => max 0 (1 - self.gamma * x))
      ∧ (∀ (self : RSOLoss) (ls : ℝ) (P R : ChosenRejectedOutputs),
          (self.forward P R).2 = ((DPOLoss.mk self.gamma ls).forward P R).2)
      ∧ (rso86.forward cro86P cro86R).1.map D.val = [9/10] := by
  refine ⟨fun self P R => ?_, fun self ls P R => rfl, ?_⟩
  · simp only [RSOLoss.forward]
    rw [map_val_map_of_val _ (fun x => max 0 (1 - self.gamma * x))
      (fun x => rso_loss_val self.gamma x), forward_logits_val]
  · simp [RSOLoss.forward, rso86, cro86P, cro86R, D.sub, D.constMul, D.relu]
    norm_num

/-- C10: the DPO variant's rewards are independent of `label_smoothing`, and
when DPOLoss is constructed with `beta` equal to RSOLoss's `gamma`, the two
variants return identical chosen and rejected rewards on every input. -/
theorem dpo_rso_rewards_agreement :
    ∀ (beta ls ls2 : ℝ) (P R : ChosenRejectedOutputs),
      ((DPOLoss.mk beta ls).forward P R).2 = ((DPOLoss.mk beta ls2).forward P R).2
        ∧ ((RSOLoss.mk beta).forward P R).2 = ((DPOLoss.mk beta ls).forward P R).2 := by
  intro beta ls ls2 P R
  exact ⟨rfl, rfl⟩

end

/-! ## The Llama 3.2 vision transform
(`torchtune/models/llama3_2_vision/_transform.py`) -/

/-- A message: a role-tagged content unit holding zero or more embedded
media items; `media` is what `Message.get_media()` yields, in order. -/
structure Message (Img : Type) where
  role : String
  media : List Img

/-- The `encoder_input` value: two parallel sequences, the processed image tiles and
the aspect-ratio descriptor of each source image. -/
structure EncoderInput (TImg AR : Type) where
  images : List TImg
  aspect_ratio : List AR

/-- A sample mapping: the caller-owned `messages` field, the four fields
written by the pipeline (absent until written), and an opaque residue
`other` standing for every other key of the caller's mapping. -/
structure Sample (Img TImg AR Other : Type) where
  messages : List (Message Img)
  encoder_input : Option (EncoderInput TImg AR)
  tokens : Option (List Int)
  mask : Option (List Bool)
  encoder_mask : Option (List (List Bool))
  other : Other

/-- Modelled from the spec: the owned Llama3 text tokenizer, external to
the verified sources.  Data attributes, the delegated operations, and the
tokens/mask production of its sample-level call (which per the spec adds
only `tokens` and `mask`, computed from the messages). -/
structure Tokenizer (Img : Type) where
  stop_tokens : List Int
  special_tokens : List (String × Int)
  pad_id : Int
  image_id : Int
  base_vocab_size : Nat
  vocab_size : Nat
  encode : String → Bool → Bool → List Int
  decode : List Int → Bool → Bool → String
  tokenize_message : Message Img → Bool → Bool → List Int
  tokenize_messages : List (Message Img) → Bool → List Int × List Bool
  sample_tokens : List (Message Img) → Bool → List Int × List Bool

/-- Modelled from the spec: the owned CLIP image transform, external to the
verified sources; maps one raw image (with the inference flag) to its tile
tensor and aspect-ratio descriptor. -/
structure CLIPImageTransform (Img TImg AR : Type) where
  apply : Img → Bool → TImg × AR

/-- Modelled from the spec: the cross-attention mask builder, external to
the verified sources; constructed from tile size, patch size and the image
token id, it exposes `patches_per_tile` (derived from tile size and patch
size) and a sample-level call reading `tokens` and `encoder_input` and
producing `encoder_mask`. -/
structure VisionCrossAttentionMask (TImg AR : Type) where
  tile_size : Nat
  patch_size : Nat
  image_token_id : Int
  patches_per_tile : Nat
  mask_of : List Int → EncoderInput TImg AR → List (List Bool)

/-- The `Llama3VisionTransform`: the owned subcomponents and the attributes
assigned in `__init__` (lines 78–105 of `_transform.py`). -/
structure Llama3VisionTransform (Img TImg AR : Type) where
  tokenizer : Tokenizer Img
  transform_image : CLIPImageTransform Img TImg AR
  xattn_mask : VisionCrossAttentionMask TImg AR
  stop_tokens : List Int
  special_tokens : List (String × Int)
  max_seq_len : Option Nat
  max_num_tiles : Nat
  image_seq_len : Nat
  prompt_template : Option String
  pad_id : Int

/-- Embedding of `Llama3VisionTransform.__init__` (lines 65–105): constructs the three
subcomponents and assigns the derived attributes.  `tok` is the object
`llama3_tokenizer(path, ...)` returns (its construction from the file at
`path` is external I/O); `clipBehavior`, `ppt` and `maskOf` are the CLIP
transform's behaviour, the mask builder's `patches_per_tile` derivation
from tile and patch size, and the mask builder's sample-level behaviour,
all modelled from the spec. -/
def Llama3VisionTransform.init {Img TImg AR : Type} (tok : Tokenizer Img)
    (clipBehavior : Img → Bool → TImg × AR)
    (ppt : Nat → Nat → Nat)
    (maskOf : List Int → EncoderInput TImg AR → List (List Bool))
    (tile_size patch_size max_num_tiles : Nat)
    (max_seq_len : Option Nat) (prompt_template : Option String) :
    Llama3VisionTransform Img TImg AR :=
  let xattn : VisionCrossAttentionMask TImg AR :=
    { tile_size := tile_size
      patch_size := patch_size
      image_token_id := tok.image_id
      patches_per_tile := ppt tile_size patch_size
      mask_of := maskOf }
  { tokenizer := tok
    transform_image := ⟨clipBehavior⟩
    xattn_mask := xattn
    stop_tokens := tok.stop_tokens
    special_tokens := tok.special_tokens
    max_seq_len := max_seq_len
    max_num_tiles := max_num_tiles
    image_seq_len := max_num_tiles * (xattn.patches_per_tile + 1)
    prompt_template := prompt_template
    pad_id := tok.pad_id }

/-- The `base_vocab_size` property (lines 107–109): a read through the
owned tokenizer reference; `now` is that object's state at read time. -/
def Llama3VisionTransform.base_vocab_size {Img TImg AR : Type}
    (_self : Llama3VisionTransform Img TImg AR) (now : Tokenizer Img) : Nat :=
  now.base_vocab_size

/-- The `vocab_size` property (lines 111–113): a read through the owned
tokenizer reference; `now` is that object's state at read time. -/
def Llama3VisionTransform.vocab_size {Img TImg AR : Type}
    (_self : Llama3VisionTransform Img TImg AR) (now : Tokenizer Img) : Nat :=
  now.vocab_size

/-- Embedding of `encode` (lines 115–121) in state-passing form: the second component is
the state of `self` when the method returns (its body assigns nothing to
`self`). -/
def Llama3VisionTransform.encode {Img TImg AR : Type}
    (self : Llama3VisionTransform Img TImg AR) (text : String)
    (add_bos add_eos : Bool) :
    List Int × Llama3VisionTransform Img TImg AR :=
  (self.tokenizer.encode text add_bos add_eos, self)

/-- Embedding of `decode` (lines 123–146) in state-passing form. -/
def Llama3VisionTransform.decode {Img TImg AR : Type}
    (self : Llama3VisionTransform Img TImg AR) (token_ids : List Int)
    (truncate_at_eos skip_special_tokens : Bool) :
    String × Llama3VisionTransform Img TImg AR :=
  (self.tokenizer.decode token_ids truncate_at_eos skip_special_tokens, self)

/-- Embedding of `tokenize_message` (lines 148–169) in state-passing form. -/
def Llama3VisionTransform.tokenize_message {Img TImg AR : Type}
    (self : Llama3VisionTransform Img TImg AR) (message : Message Img)
    (add_start_tokens add_end_tokens : Bool) :
    List Int × Llama3VisionTransform Img TImg AR :=
  (self.tokenizer.tokenize_message message add_start_tokens add_end_tokens, self)

/-- Embedding of `tokenize_messages` (lines 171–190) in state-passing form. -/
def Llama3VisionTransform.tokenize_messages {Img TImg AR : Type}
    (self : Llama3VisionTransform Img TImg AR) (messages : List (Message Img))
    (add_end_tokens : Bool) :
    (List Int × List Bool) × Llama3VisionTransform Img TImg AR :=
  (self.tokenizer.tokenize_messages messages add_end_tokens, self)

/-- The nested loops of `__call__` (lines 209–215): scan the messages
top-to-bottom and each message's media left-to-right, appending each
transformed image and its aspect ratio to `encoder_input`. -/
def buildEncoderInput {Img TImg AR : Type} (clip : CLIPImageTransform Img TImg AR)
    (inference : Bool) (messages : List (Message Img)) : EncoderInput TImg AR :=
  messages.foldl (fun acc message =>
    message.media.foldl (fun acc2 image =>
      { images := acc2.images ++ [(clip.apply image inference).1]
        aspect_ratio := acc2.aspect_ratio ++ [(clip.apply image inference).2] })
      acc)
    ⟨[], []⟩

/-- Modelled from the spec: the tokenizer's sample-level call mutates and
returns the same sample mapping, adding only `tokens` and `mask`. -/
def tokenizerSampleCall {Img TImg AR Other : Type} (tok : Tokenizer Img)
    (s : Sample Img TImg AR Other) (inference : Bool) : Sample Img TImg AR Other :=
  { s with
    tokens := some (tok.sample_tokens s.messages inference).1
    mask := some (tok.sample_tokens s.messages inference).2 }

/-- Modelled from the spec: the mask builder's sample-level call mutates
and returns the same sample mapping, adding only `encoder_mask`, computed
from `tokens` and `encoder_input`. -/
def xattnSampleCall {Img TImg AR Other : Type} (m : VisionCrossAttentionMask TImg AR)
    (s : Sample Img TImg AR Other) (_inference : Bool) : Sample Img TImg AR Other :=
  { s with
    encoder_mask :=
      some (m.mask_of (s.tokens.getD []) (s.encoder_input.getD ⟨[], []⟩)) }

/-- Embedding of `__call__` (lines 192–220) in state-passing form: attach
`encoder_input`, run the tokenizer's sample-level call, run the mask
builder's sample-level call, return the sample; the second component is
the state of `self` when the method returns. -/
def Llama3VisionTransform.call {Img TImg AR Other : Type}
    (self : Llama3VisionTransform Img TImg AR) (sample : Sample Img TImg AR Other)
    (inference : Bool) :
    Sample Img TImg AR Other × Llama3VisionTransform Img TImg AR :=
  let encoder_input := buildEncoderInput self.transform_image inference sample.messages
  let s1 := { sample with encoder_input := some encoder_input }
  let s2 := tokenizerSampleCall self.tokenizer s1 inference
  let s3 := xattnSampleCall self.xattn_mask s2 inference
  (s3, self)

/-- A stage failure propagated by `__call__`. -/
inductive StageError where
  | tokenization : StageError
  | maskAlignment : StageError

/-- Embedding of `__call__` under stage failure: when `failTok` (resp. `failMask`) is
set, the tokenization (resp. mask) stage raises instead of completing.
The second component is the state of the caller's sample mapping when
control leaves `__call__`, whether by returning or by propagating the
error. -/
def Llama3VisionTransform.callE {Img TImg AR Other : Type}
    (self : Llama3VisionTransform Img TImg AR) (failTok failMask : Bool)
    (sample : Sample Img TImg AR Other) (inference : Bool) :
    Except StageError (Sample Img TImg AR Other) × Sample Img TImg AR Other :=
  let ei := buildEncoderInput self.transform_image inference sample.messages
  let s1 := { sample with encoder_input := some ei }
  if failTok then (Except.error StageError.tokenization, s1)
  else
    let s2 := tokenizerSampleCall self.tokenizer s1 inference
    if failMask then (Except.error StageError.maskAlignment, s2)
    else
      let s3 := xattnSampleCall self.xattn_mask s2 inference
      (Except.ok s3, s3)

/-- All media items of a message list in encounter order: messages
top-to-bottom, each message's media left-to-right. -/
def mediaInOrder {Img : Type} (messages : List (Message Img)) : List Img :=
  messages.flatMap Message.media

/-! ## Supporting lemmas for the transform theorems -/

lemma innerFold_eq {Img TImg AR : Type} (clip : CLIPImageTransform Img TImg AR)
    (inference : Bool) (media : List Img) (acc : EncoderInput TImg AR) :
    media.foldl (fun acc2 image =>
        { images := acc2.images ++ [(clip.apply image inference).1]
          aspect_ratio := acc2.aspect_ratio ++ [(clip.apply image inference).2] })
      acc =
      ⟨acc.images ++ media.map (fun im => (clip.apply im inference).1),
        acc.aspect_ratio ++ media.map (fun im => (clip.apply im inference).2)⟩ := by
  induction media generalizing acc with
  | nil => simp
  | cons im rest ih => simp [ih]

lemma outerFold_eq {Img TImg AR : Type} (clip : CLIPImageTransform Img TImg AR)
    (inference : Bool) (messages : List (Message Img)) (acc : EncoderInput TImg AR) :
    messages.foldl (fun acc message =>
        message.media.foldl (fun acc2 image =>
          { images := acc2.images ++ [(clip.apply image inference).1]
            aspect_ratio := acc2.aspect_ratio ++ [(clip.apply image inference).2] })
          acc)
      acc =
      ⟨acc.images ++ (mediaInOrder messages).map (fun im => (clip.apply im inference).1),
        acc.aspect_ratio ++ (mediaInOrder messages).map (fun im => (clip.apply im inference).2)⟩ := by
  induction messages generalizing acc with
  | nil => simp [mediaInOrder]
  | cons message rest ih =>
    rw [List.foldl_cons, innerFold_eq, ih]
    simp [mediaInOrder, List.flatMap_cons, List.map_append, List.append_assoc]

lemma buildEncoderInput_eq {Img TImg AR : Type} (clip : CLIPImageTransform Img TImg AR)
    (inference : Bool) (messages : List (Message Img)) :
    buildEncoderInput clip inference messages =
      ⟨(mediaInOrder messages).map (fun im => (clip.apply im inference).1),
        (mediaInOrder messages).map (fun im => (clip.apply im inference).2)⟩ := by
  rw [buildEncoderInput, outerFold_eq]
  simp

/-! ## Concrete instances used by counterexamples and witnesses -/

/-- A concrete tokenizer state, as at construction time. -/
def tokA : Tokenizer Unit :=
  { stop_tokens := [128001], special_tokens := [("eot", 128009)], pad_id := 0,
    image_id := 128256, base_vocab_size := 128000, vocab_size := 128257,
    encode := fun _ _ _ => [], decode := fun _ _ _ => "",
    tokenize_message := fun _ _ _ => [], tokenize_messages := fun _ _ => ([], []),
    sample_tokens := fun _ _ => ([], []) }

/-- The same tokenizer object after its `pad_id` attribute is reassigned:
its current `pad_id` no longer matches the construction-time value. -/
def tokB : Tokenizer Unit := { tokA with pad_id := 1 }

/-- A concrete transform built (at construction time) from `tokA`. -/
def transformA : Llama3VisionTransform Unit Unit Unit :=
  Llama3VisionTransform.init tokA (fun _ _ => ((), ())) (fun t p => (t / p) ^ 2)
    (fun _ _ => []) 224 14 4 none none

/-- A concrete sample whose messages embed zero images. -/
def sampleNoImages : Sample Unit Unit Unit Unit :=
  ⟨[⟨"user", []⟩, ⟨"assistant", []⟩], none, none, none, none, ()⟩

/-! ## Claim theorems for the transform -/

/-- C1: for every sample, after the image-extraction stage the attached
`encoder_input` holds two sequences of equal length, `images` and
`aspect_ratio`, whose common length is the total media count across all
messages, both in strict encounter order (messages top-to-bottom, each
message's media left-to-right); with zero embedded images both are empty. -/
theorem encoder_input_parallel_ordered :
    ∀ {Img TImg AR Other : Type} (self : Llama3VisionTransform Img TImg AR)
      (s : Sample Img TImg AR Other) (inference : Bool),
      ∃ e : EncoderInput TImg AR,
        ((self.call s inference).1.encoder_input = some e)
          ∧ e.images = (mediaInOrder s.messages).map
              (fun im => (self.transform_image.apply im inference).1)
          ∧ e.aspect_ratio = (mediaInOrder s.messages).map
              (fun im => (self.transform_image.apply im inference).2)
          ∧ e.images.length = e.aspect_ratio.length
          ∧ e.images.length = (s.messages.map (fun m => m.media.length)).sum
          ∧ (mediaInOrder s.messages = [] → e.images = [] ∧ e.aspect_ratio = []) := by
  intro Img TImg AR Other self s inference
  refine ⟨buildEncoderInput self.transform_image inference s.messages,
    rfl, ?_, ?_, ?_, ?_, ?_⟩
  · rw [buildEncoderInput_eq]
  · rw [buildEncoderInput_eq]
  · rw [buildEncoderInput_eq]
    simp
  · rw [buildEncoderInput_eq]
    simp [mediaInOrder, List.length_flatMap, Function.comp_def]
  · intro h
    rw [buildEncoderInput_eq]
    simp [h]

/-- Witness for C1: at a concrete transform and a concrete sample with zero
embedded images, the returned `encoder_input` exists and both its sequences
are empty. -/
theorem encoder_input_parallel_ordered_witness :
    ∃ e : EncoderInput Unit Unit,
      ((transformA.call sampleNoImages false).1.encoder_input = some e)
        ∧ e.images = [] ∧ e.aspect_ratio = [] := by
  obtain ⟨e, h1, _, _, _, _, h6⟩ :=
    encoder_input_parallel_ordered transformA sampleNoImages false
  obtain ⟨hi, ha⟩ := h6 rfl
  exact ⟨e, h1, hi, ha⟩

/-- C2: `__call__` returns the caller's sample mapping with the
caller-owned `messages` field untouched and every other pre-existing field
(the opaque residue) unchanged; its only effect is adding the fields
`encoder_input`, `tokens`, `mask` and `encoder_mask`.  The embedding is
pure state passing, so no global or cross-call state exists to be
touched. -/
theorem call_frame_effect :
    ∀ {Img TImg AR Other : Type} (self : Llama3VisionTransform Img TImg AR)
      (s : Sample Img TImg AR Other) (inference : Bool),
      ((self.call s inference).1.messages = s.messages)
        ∧ (self.call s inference).1.other = s.other
        ∧ (self.call s inference).1.encoder_input =
            some (buildEncoderInput self.transform_image inference s.messages)
        ∧ (self.call s inference).1.tokens =
            some (self.tokenizer.sample_tokens s.messages inference).1
        ∧ (self.call s inference).1.mask =
            some (self.tokenizer.sample_tokens s.messages inference).2
        ∧ (∃ em, (self.call s inference).1.encoder_mask = some em) := by
  intros
  exact ⟨rfl, rfl, rfl, rfl, rfl, ⟨_, rfl⟩⟩

/-- C3 counterexample: the claim says the exposed padding-token id always
equals the owned tokenizer's current value; but `pad_id` is copied into an
attribute at construction (line 105), so after the tokenizer's `pad_id`
attribute is reassigned from 0 to 1 the transform still exposes 0. -/
theorem pad_id_not_read_through : transformA.pad_id ≠ tokB.pad_id := by
  decide

/-- C3 (amended): `base_vocab_size` and `vocab_size` are read-through
properties that always reflect the owned tokenizer's current state, while
the stop-token set, special-token table and padding-token id are copied
from the tokenizer at construction and equal its construction-time
values (they do not track later reassignment). -/
theorem properties_delegation :
    ∀ {Img TImg AR : Type} (tok : Tokenizer Img)
      (clipBehavior : Img → Bool → TImg × AR) (ppt : Nat → Nat → Nat)
      (maskOf : List Int → EncoderInput TImg AR → List (List Bool))
      (ts ps mnt : Nat) (msl : Option Nat) (pt : Option String)
      (now : Tokenizer Img),
      ((Llama3VisionTransform.init tok clipBehavior ppt maskOf ts ps mnt msl
          pt).base_vocab_size now = now.base_vocab_size)
        ∧ ((Llama3VisionTransform.init tok clipBehavior ppt maskOf ts ps mnt msl
            pt).vocab_size now = now.vocab_size)
        ∧ (Llama3VisionTransform.init tok clipBehavior ppt maskOf ts ps mnt msl
            pt).stop_tokens = tok.stop_tokens
        ∧ (Llama3VisionTransform.init tok clipBehavior ppt maskOf ts ps mnt msl
            pt).special_tokens = tok.special_tokens
        ∧ (Llama3VisionTransform.init tok clipBehavior ppt maskOf ts ps mnt msl
            pt).pad_id = tok.pad_id := by
  intros
  exact ⟨rfl, rfl, rfl, rfl, rfl⟩

/-- C4: for every construction, `image_seq_len` equals
`max_num_tiles * (patches_per_tile + 1)` exactly, where `patches_per_tile`
is the value exposed by the owned cross-attention mask builder; it is a
function of the construction parameters alone (no sample is involved). -/
theorem image_seq_len_formula :
    ∀ {Img TImg AR : Type} (tok : Tokenizer Img)
      (clipBehavior : Img → Bool → TImg × AR) (ppt : Nat → Nat → Nat)
      (maskOf : List Int → EncoderInput TImg AR → List (List Bool))
      (ts ps mnt : Nat) (msl : Option Nat) (pt : Option String),
      ((Llama3VisionTransform.init tok clipBehavior ppt maskOf ts ps mnt msl
          pt).image_seq_len =
        mnt * ((Llama3VisionTransform.init tok clipBehavior ppt maskOf ts ps mnt
            msl pt).xattn_mask.patches_per_tile + 1))
        ∧ (Llama3VisionTransform.init tok clipBehavior ppt maskOf ts ps mnt msl
            pt).xattn_mask.patches_per_tile = ppt ts ps := by
  intros
  exact ⟨rfl, rfl⟩

/-- C8: `__call__` is not atomic on error: `encoder_input` is attached to
the caller's mapping before the tokenization stage runs, so a tokenization
failure leaves the mapping holding the new `encoder_input` (and `tokens`
and `mask` still as they were), and a mask-stage failure leaves it holding
`encoder_input`, `tokens` and `mask`. -/
theorem call_not_atomic_on_error :
    ∀ {Img TImg AR Other : Type} (self : Llama3VisionTransform Img TImg AR)
      (s : Sample Img TImg AR Other) (inference failMask : Bool),
      ((self.callE true failMask s inference).1 =
          Except.error StageError.tokenization
        ∧ (self.callE true failMask s inference).2.encoder_input =
            some (buildEncoderInput self.transform_image inference s.messages)
        ∧ (self.callE true failMask s inference).2.tokens = s.tokens
        ∧ (self.callE true failMask s inference).2.mask = s.mask)
      ∧ ((self.callE false true s inference).1 =
          Except.error StageError.maskAlignment
        ∧ (self.callE false true s inference).2.encoder_input =
            some (buildEncoderInput self.transform_image inference s.messages)
        ∧ (self.callE false true s inference).2.tokens =
            some (self.tokenizer.sample_tokens s.messages inference).1
        ∧ (self.callE false true s inference).2.mask =
            some (self.tokenizer.sample_tokens s.messages inference).2) := by
  intros
  exact ⟨⟨rfl, rfl, rfl, rfl⟩, ⟨rfl, rfl, rfl, rfl⟩⟩

/-- C9: the transform object is read-only after construction: every public
operation returns `self` in exactly the state it had before the call — all
attributes, including the owned subcomponent references, are unchanged. -/
theorem transform_read_only :
    ∀ {Img TImg AR Other : Type} (self : Llama3VisionTransform Img TImg AR),
      (∀ (text : String) (b1 b2 : Bool), (self.encode text b1 b2).2 = self)
        ∧ (∀ (ids : List Int) (b1 b2 : Bool), (self.decode ids b1 b2).2 = self)
        ∧ (∀ (m : Message Img) (b1 b2 : Bool),
            (self.tokenize_message m b1 b2).2 = self)
        ∧ (∀ (ms : List (Message Img)) (b : Bool),
            (self.tokenize_messages ms b).2 = self)
        ∧ (∀ (s : Sample Img TImg AR Other) (inference : Bool),
            (self.call s inference).2 = self) := by
  intros
  exact ⟨fun _ _ _ => rfl, fun _ _ _ => rfl, fun _ _ _ => rfl,
    fun _ _ => rfl, fun _ _ => rfl⟩

end Torchtune
